import Mathlib

set_option linter.unusedVariables false

/-!
Verification of the evaluation-report generator: the rubric data model, the
prompt compiler (`generatePrompt`), the usage-quota engine (`checkDailyLimit`,
`incrementDailyUsage`), the report orchestrator (`handleGenerate`), the
selection-mutation logic (`handleBlockChange` and the comment-checkbox toggle),
and the subject cascade delete, embedded from the TypeScript source.

The clock read `new Date().toISOString().split('T')[0]` is embedded as an
explicit `today : String` parameter.  JavaScript truthiness on nullable strings
(`!x`, `x || y`) is embedded explicitly: `none` and `some ""` are falsy.
-/

/-- `'nen' | 'nena'` from types.ts. -/
inductive Gender where
  | nen
  | nena
deriving DecidableEq, Repr

/-- String value of a `Gender`, as interpolated into templates. -/
def Gender.str : Gender → String
  | .nen => "nen"
  | .nena => "nena"

/-- `'1' | '2' | '3'` from types.ts. -/
inductive Trimester where
  | t1
  | t2
  | t3
deriving DecidableEq, Repr

/-- String value of a `Trimester`, as interpolated into templates. -/
def Trimester.str : Trimester → String
  | .t1 => "1"
  | .t2 => "2"
  | .t3 => "3"

/-- `'1r' | '2n' | '3r' | '4t' | '5è' | '6è'` from types.ts. -/
inductive Course where
  | c1r
  | c2n
  | c3r
  | c4t
  | c5e
  | c6e
deriving DecidableEq, Repr

/-- String value of a `Course`, as interpolated into templates. -/
def Course.str : Course → String
  | .c1r => "1r"
  | .c2n => "2n"
  | .c3r => "3r"
  | .c4t => "4t"
  | .c5e => "5è"
  | .c6e => "6è"

/-- `'mestre' | 'mestra'`: the teacher's grammatical gender from the profile. -/
inductive TeacherGender where
  | mestre
  | mestra
deriving DecidableEq, Repr

/-- String value of a `TeacherGender`, as interpolated into templates. -/
def TeacherGender.str : TeacherGender → String
  | .mestre => "mestre"
  | .mestra => "mestra"

/-- `Student` from types.ts. -/
structure Student where
  id : String
  name : String
  gender : Gender
  course : Course
deriving DecidableEq, Repr

/-- `Subject` from types.ts. -/
structure Subject where
  id : String
  name : String
deriving DecidableEq, Repr

/-- `Block` from types.ts. -/
structure Block where
  id : String
  subject_id : String
  name : String
  trimesters : List Trimester
deriving DecidableEq, Repr

/-- `Gradient` from types.ts. -/
structure Gradient where
  id : String
  block_id : String
  tag : String
  text : String
deriving DecidableEq, Repr

/-- `Comment` from types.ts. -/
structure Comment where
  id : String
  block_id : String
  tag : String
  text : String
deriving DecidableEq, Repr

/-- The `dailyUsage` record of a `UserProfile` from types.ts. -/
structure DailyUsage where
  date : String
  count : Nat
deriving DecidableEq, Repr

/-- `UserProfile` from types.ts, plus the optional `geminiApiKey` the
Evaluator reads from the profile (the per-user credential override). -/
structure UserProfile where
  id : String
  email : String
  name : String
  currentCourse : Course
  gender : TeacherGender
  isPremium : Bool
  dailyUsage : DailyUsage
  geminiApiKey : Option String
deriving DecidableEq, Repr

/-- One entry of `EvaluationState` from types.ts:
`{ gradientId: string | null; commentIds: string[] }`. -/
structure BlockEval where
  gradientId : Option String
  commentIds : List String
deriving DecidableEq, Repr

/-- `EvaluationState` from types.ts: a JS object indexed by block id;
indexing a missing key yields `undefined`, i.e. `none`. -/
def EvalMap : Type := String → Option BlockEval

/-- `AppData` from types.ts. -/
structure AppData where
  students : List Student
  subjects : List Subject
  blocks : List Block
  gradients : List Gradient
  comments : List Comment
deriving DecidableEq, Repr

/-- JS truthiness of a nullable string: `undefined`/`null` and `""` are falsy. -/
def jsTruthy : Option String → Bool
  | none => false
  | some s => s ≠ ""

/-- JS `a || b` on nullable strings. -/
def jsOr (a b : Option String) : Option String :=
  if jsTruthy a then a else b

/-- JS `a || d` where `d` is a plain (non-null) default string. -/
def jsOrDefault (a : Option String) (d : String) : String :=
  match a with
  | some s => if s = "" then d else s
  | none => d

/-- `checkDailyLimit` from services/storageService.ts.  The source reads
`today` from the clock; it is passed explicitly here. -/
def checkDailyLimit (user : UserProfile) (today : String) : Bool :=
  if user.isPremium then true
  else if user.dailyUsage.date ≠ today then true
  else user.dailyUsage.count < 5

/-- `incrementDailyUsage` from services/storageService.ts.  The source reads
`today` from the clock; it is passed explicitly here. -/
def incrementDailyUsage (user : UserProfile) (today : String) : UserProfile :=
  if user.isPremium then user
  else
    let newUsage :=
      if user.dailyUsage.date ≠ today then
        { date := today, count := 1 }
      else
        { date := user.dailyUsage.date, count := user.dailyUsage.count + 1 : DailyUsage }
    { user with dailyUsage := newUsage }

/-- C3: `checkDailyLimit` admits exactly when the profile is premium, or the
stored usage date differs from today, or the date is today with count < 5;
it refuses exactly for a non-premium profile at today's date with count ≥ 5. -/
theorem checkDailyLimit_admission_iff (user : UserProfile) (today : String) :
    (checkDailyLimit user today = true ↔
      (user.isPremium = true ∨ user.dailyUsage.date ≠ today ∨
        (user.dailyUsage.date = today ∧ user.dailyUsage.count < 5))) ∧
    (checkDailyLimit user today = false ↔
      (user.isPremium = false ∧ user.dailyUsage.date = today ∧
        5 ≤ user.dailyUsage.count)) := by
  unfold checkDailyLimit
  by_cases hp : user.isPremium <;>
    by_cases hd : user.dailyUsage.date = today <;>
      by_cases hc : user.dailyUsage.count < 5 <;>
        simp [hp, hd, hc] <;> omega

/-- C4: `incrementDailyUsage` is the identity on premium profiles; for a
non-premium profile it resets the usage to `{date: today, count: 1}` on day
rollover, and otherwise increments the count by one keeping the date. -/
theorem incrementDailyUsage_spec (user : UserProfile) (today : String) :
    (user.isPremium = true → incrementDailyUsage user today = user) ∧
    (user.isPremium = false → user.dailyUsage.date ≠ today →
      (incrementDailyUsage user today).dailyUsage = { date := today, count := 1 }) ∧
    (user.isPremium = false → user.dailyUsage.date = today →
      (incrementDailyUsage user today).dailyUsage =
        { date := user.dailyUsage.date, count := user.dailyUsage.count + 1 }) := by
  refine ⟨fun hp => ?_, fun hp hd => ?_, fun hp hd => ?_⟩
  · simp [incrementDailyUsage, hp]
  · simp [incrementDailyUsage, hp, hd]
  · simp [incrementDailyUsage, hp, hd]

/-- A premium profile used as concrete witness input. -/
def premiumUser : UserProfile :=
  { id := "u1", email := "a@b.cat", name := "Maria", currentCourse := .c3r,
    gender := .mestra, isPremium := true,
    dailyUsage := { date := "2024-04-30", count := 2 }, geminiApiKey := none }

/-- A non-premium profile whose stored usage date is in the past. -/
def freeUserYesterday : UserProfile :=
  { id := "u2", email := "c@d.cat", name := "Joan", currentCourse := .c1r,
    gender := .mestre, isPremium := false,
    dailyUsage := { date := "2024-04-30", count := 5 }, geminiApiKey := none }

/-- A non-premium profile whose stored usage date is today with count 4. -/
def freeUserToday : UserProfile :=
  { id := "u3", email := "e@f.cat", name := "Anna", currentCourse := .c2n,
    gender := .mestra, isPremium := false,
    dailyUsage := { date := "2024-05-01", count := 4 }, geminiApiKey := none }

/-- Witness for C4 at concrete profiles: premium no-op, rollover reset to
count 1 (not 6), and same-day increment 4 → 5. -/
theorem incrementDailyUsage_spec_witness :
    incrementDailyUsage premiumUser "2024-05-01" = premiumUser ∧
    (incrementDailyUsage freeUserYesterday "2024-05-01").dailyUsage =
      { date := "2024-05-01", count := 1 } ∧
    (incrementDailyUsage freeUserToday "2024-05-01").dailyUsage =
      { date := "2024-05-01", count := 5 } :=
  ⟨(incrementDailyUsage_spec premiumUser "2024-05-01").1 rfl,
   (incrementDailyUsage_spec freeUserYesterday "2024-05-01").2.1 rfl (by decide),
   (incrementDailyUsage_spec freeUserToday "2024-05-01").2.2 rfl (by decide)⟩

/-- Opening sentence and header of the prompt, templated exactly as in
`generatePrompt` (services/geminiService.ts). -/
def promptHeader (student : Student) (subject : Subject) (trimester : Trimester)
    (teacherGender : TeacherGender) : String :=
  "Ets un" ++ (if teacherGender = TeacherGender.mestre then "" else "a") ++ " " ++
    teacherGender.str ++
    " de primaria que esta avaluant als seus alumnes. Redacta en català un informe d’avaluació per a l’alumne " ++
    student.name ++ ", que és " ++ student.gender.str ++ ", de " ++ student.course.str ++
    " de Primària.\n" ++ "Trimestre: " ++ trimester.str ++ "\nÀrea: " ++ subject.name ++
    "\n\nBlocs avaluats:\n\n"

/-- The per-block text appended inside the `blocks.forEach` loop of
`generatePrompt`: the empty string when the block is skipped
(`if (!ev || !ev.gradientId) return`, where JS `!` is falsy on `null`,
`undefined` and `""`), and otherwise the three-line paragraph.  The chain
`.map(find).filter((c): c is Comment => !!c).map(c => c.text)` is embedded as
`map` / `reduceOption` / `map` (`reduceOption` is exactly filter-isSome
followed by unwrapping). -/
def blockParagraph (gradients : List Gradient) (comments : List Comment)
    (evaluations : EvalMap) (block : Block) : String :=
  match evaluations block.id with
  | none => ""
  | some ev =>
    match ev.gradientId with
    | none => ""
    | some gid =>
      if gid = "" then ""
      else
        let gradText :=
          match gradients.find? (fun g => g.id == gid) with
          | some g => g.text
          | none => "Sense avaluació"
        let selectedComments :=
          ((ev.commentIds.map (fun cid => comments.find? (fun c => c.id == cid))).reduceOption).map
            Comment.text
        "- Bloc: " ++ block.name ++ "\n" ++ "  Gradient: " ++ gradText ++ "\n" ++
          "  Comentaris: " ++ String.intercalate "; " selectedComments ++ "\n\n"

/-- The accumulation of per-block paragraphs over the block list, in order
(the `blocks.forEach` of `generatePrompt`). -/
def blocksSection (gradients : List Gradient) (comments : List Comment)
    (evaluations : EvalMap) : List Block → String
  | [] => ""
  | b :: bs =>
    blockParagraph gradients comments evaluations b ++
      blocksSection gradients comments evaluations bs

/-- Closing constraints block of the prompt, exactly as in `generatePrompt`. -/
def promptFooter (student : Student) : String :=
  "Condicions:\n" ++ "- L’informe no pot superar les 300 paraules.\n" ++
    "- Fes un sol redactat: sense fer subapartats.\n" ++
    "- Fes que les frases tinguin coherencia de genere ( " ++ student.gender.str ++
    " ) i persona.\n" ++ "- Ha de ser un text coherent, amb to pedagògic i positiu.\n" ++
    "- Fes servir un llenguatge humà.\n" ++ "- Ha d’estar íntegrament escrit en català.\n"

/-- `generatePrompt` from services/geminiService.ts: header, then one
paragraph per evaluated block in order, then the closing constraints. -/
def generatePrompt (student : Student) (subject : Subject) (trimester : Trimester)
    (blocks : List Block) (gradients : List Gradient) (comments : List Comment)
    (evaluations : EvalMap) (teacherGender : TeacherGender) : String :=
  promptHeader student subject trimester teacherGender ++
    blocksSection gradients comments evaluations blocks ++
    promptFooter student

/-- String concatenation is associative. -/
theorem str_append_assoc (a b c : String) : a ++ b ++ c = a ++ (b ++ c) := by
  apply String.ext
  simp [String.data_append, List.append_assoc]

/-- The empty string is a right identity for concatenation. -/
theorem str_append_empty (s : String) : s ++ "" = s := by
  apply String.ext
  simp [String.data_append]

/-- The empty string is a left identity for concatenation. -/
theorem str_empty_append (s : String) : "" ++ s = s := by
  apply String.ext
  simp [String.data_append]

/-- `sub` occurs (as a contiguous factor) inside `s`. -/
def occursIn (sub s : String) : Prop := ∃ p q, s = p ++ sub ++ q

theorem occursIn_refl (s : String) : occursIn s s :=
  ⟨"", "", by rw [str_empty_append, str_append_empty]⟩

theorem occursIn_append_left (sub s t : String) (h : occursIn sub s) :
    occursIn sub (s ++ t) := by
  obtain ⟨p, q, rfl⟩ := h
  exact ⟨p, q ++ t, by rw [str_append_assoc (p ++ sub) q t]⟩

theorem occursIn_append_right (sub s t : String) (h : occursIn sub t) :
    occursIn sub (s ++ t) := by
  obtain ⟨p, q, rfl⟩ := h
  exact ⟨s ++ p, q, by rw [← str_append_assoc s (p ++ sub) q, ← str_append_assoc s p sub]⟩

theorem occursIn_ne_empty {sub s : String} (h : occursIn sub s)
    (hl : 0 < sub.length) : s ≠ "" := by
  obtain ⟨p, q, rfl⟩ := h
  intro he
  have hc := congrArg String.length he
  simp [String.length_append] at hc
  omega

/-- The map-find / filter-isSome / map-text chain equals a single filterMap. -/
theorem map_reduceOption_map_eq_filterMap {α β γ : Type} (f : α → Option β) (g : β → γ)
    (l : List α) :
    (((l.map f).reduceOption).map g) = l.filterMap (fun a => (f a).map g) := by
  induction l with
  | nil => rfl
  | cons a l ih =>
    cases h : f a <;> simp [List.reduceOption, List.filterMap_cons, h, ih] <;>
      simpa [List.reduceOption] using ih

/-- C5: for all well-formed inputs `generatePrompt` (a total function, so it
never throws) returns a non-empty string that contains the student's name and
the subject's name. -/
theorem generatePrompt_nonempty_and_mentions (student : Student) (subject : Subject)
    (trimester : Trimester) (blocks : List Block) (gradients : List Gradient)
    (comments : List Comment) (evaluations : EvalMap) (teacherGender : TeacherGender) :
    generatePrompt student subject trimester blocks gradients comments evaluations
        teacherGender ≠ "" ∧
    occursIn student.name
      (generatePrompt student subject trimester blocks gradients comments evaluations
        teacherGender) ∧
    occursIn subject.name
      (generatePrompt student subject trimester blocks gradients comments evaluations
        teacherGender) := by
  have hname : occursIn student.name
      (promptHeader student subject trimester teacherGender) := by
    unfold promptHeader
    iterate 10 apply occursIn_append_left
    exact occursIn_append_right _ _ _ (occursIn_refl _)
  have hsubj : occursIn subject.name
      (promptHeader student subject trimester teacherGender) := by
    unfold promptHeader
    apply occursIn_append_left
    exact occursIn_append_right _ _ _ (occursIn_refl _)
  have hlit : occursIn "Ets un" (promptHeader student subject trimester teacherGender) := by
    unfold promptHeader
    iterate 15 apply occursIn_append_left
    exact occursIn_refl _
  refine ⟨?_, ?_, ?_⟩
  · exact occursIn_ne_empty
      (occursIn_append_left _ _ _ (occursIn_append_left _ _ _ hlit)) (by decide)
  · exact occursIn_append_left _ _ _ (occursIn_append_left _ _ _ hname)
  · exact occursIn_append_left _ _ _ (occursIn_append_left _ _ _ hsubj)

/-- Appending block lists concatenates their sections. -/
theorem blocksSection_append (gradients : List Gradient) (comments : List Comment)
    (evaluations : EvalMap) (bs₁ bs₂ : List Block) :
    blocksSection gradients comments evaluations (bs₁ ++ bs₂) =
      blocksSection gradients comments evaluations bs₁ ++
        blocksSection gradients comments evaluations bs₂ := by
  induction bs₁ with
  | nil => simp [blocksSection, str_empty_append]
  | cons b bs ih => simp [blocksSection, ih, str_append_assoc]

/-- A block whose selection entry is missing or has no chosen gradient
contributes the empty string. -/
theorem blockParagraph_eq_empty (gradients : List Gradient) (comments : List Comment)
    (evaluations : EvalMap) (b : Block)
    (h : evaluations b.id = none ∨
      ∃ e, evaluations b.id = some e ∧ e.gradientId = none) :
    blockParagraph gradients comments evaluations b = "" := by
  rcases h with h | ⟨e, he, hg⟩
  · simp [blockParagraph, h]
  · simp [blockParagraph, he, hg]

/-- C6: a block absent from the selection map, or whose entry has
`gradientId = none`, contributes no paragraph: the compiled prompt is
identical to the prompt on the same inputs with that block removed, wherever
the block sits in the list and whatever comments its entry selects. -/
theorem generatePrompt_skips_block_without_gradient (student : Student)
    (subject : Subject) (trimester : Trimester) (bs₁ bs₂ : List Block) (b : Block)
    (gradients : List Gradient) (comments : List Comment) (evaluations : EvalMap)
    (teacherGender : TeacherGender)
    (h : evaluations b.id = none ∨
      ∃ e, evaluations b.id = some e ∧ e.gradientId = none) :
    generatePrompt student subject trimester (bs₁ ++ b :: bs₂) gradients comments
        evaluations teacherGender =
      generatePrompt student subject trimester (bs₁ ++ bs₂) gradients comments
        evaluations teacherGender := by
  have hb := blockParagraph_eq_empty gradients comments evaluations b h
  unfold generatePrompt
  rw [blocksSection_append, blocksSection_append]
  simp only [blocksSection, hb, str_empty_append]

/-- The paragraph of any listed block occurs in the compiled prompt. -/
theorem blockParagraph_occurs (student : Student) (subject : Subject)
    (trimester : Trimester) (bs₁ bs₂ : List Block) (b : Block)
    (gradients : List Gradient) (comments : List Comment) (evaluations : EvalMap)
    (teacherGender : TeacherGender) :
    occursIn (blockParagraph gradients comments evaluations b)
      (generatePrompt student subject trimester (bs₁ ++ b :: bs₂) gradients comments
        evaluations teacherGender) := by
  unfold generatePrompt
  apply occursIn_append_left
  apply occursIn_append_right
  rw [blocksSection_append]
  apply occursIn_append_right
  show occursIn _ (blockParagraph gradients comments evaluations b ++ _)
  exact occursIn_append_left _ _ _ (occursIn_refl _)

/-- C7: for a block whose selection entry carries a (truthy) `gradientId`,
the compiled prompt renders the matching gradient's `text` when the lookup
succeeds and the placeholder "Sense avaluació" when the reference is
dangling, alongside the selected comments resolved in selection order to
their `text` values joined by "; " with dangling comment ids silently
dropped; no dangling reference raises an error (`generatePrompt` is total). -/
theorem generatePrompt_renders_gradient_and_comments (student : Student)
    (subject : Subject) (trimester : Trimester) (bs₁ bs₂ : List Block)
    (gradients : List Gradient) (comments : List Comment) (evaluations : EvalMap)
    (teacherGender : TeacherGender) (b : Block) (ev : BlockEval) (gid : String)
    (hev : evaluations b.id = some ev) (hgid : ev.gradientId = some gid)
    (hne : gid ≠ "") :
    (∀ g, gradients.find? (fun g2 => g2.id == gid) = some g →
      occursIn
        ("- Bloc: " ++ b.name ++ "\n" ++ "  Gradient: " ++ g.text ++ "\n" ++
          "  Comentaris: " ++
          String.intercalate "; "
            (ev.commentIds.filterMap
              (fun cid => (comments.find? (fun c => c.id == cid)).map Comment.text)) ++
          "\n\n")
        (generatePrompt student subject trimester (bs₁ ++ b :: bs₂) gradients comments
          evaluations teacherGender)) ∧
    (gradients.find? (fun g2 => g2.id == gid) = none →
      occursIn
        ("- Bloc: " ++ b.name ++ "\n" ++ "  Gradient: " ++ "Sense avaluació" ++ "\n" ++
          "  Comentaris: " ++
          String.intercalate "; "
            (ev.commentIds.filterMap
              (fun cid => (comments.find? (fun c => c.id == cid)).map Comment.text)) ++
          "\n\n")
        (generatePrompt student subject trimester (bs₁ ++ b :: bs₂) gradients comments
          evaluations teacherGender)) := by
  have hocc := blockParagraph_occurs student subject trimester bs₁ bs₂ b gradients
    comments evaluations teacherGender
  constructor
  · intro g hg
    have hpar : blockParagraph gradients comments evaluations b =
        "- Bloc: " ++ b.name ++ "\n" ++ "  Gradient: " ++ g.text ++ "\n" ++
          "  Comentaris: " ++
          String.intercalate "; "
            (ev.commentIds.filterMap
              (fun cid => (comments.find? (fun c => c.id == cid)).map Comment.text)) ++
          "\n\n" := by
      simp [blockParagraph, hev, hgid, hne, hg, map_reduceOption_map_eq_filterMap]
    rw [← hpar]
    exact hocc
  · intro hg
    have hpar : blockParagraph gradients comments evaluations b =
        "- Bloc: " ++ b.name ++ "\n" ++ "  Gradient: " ++ "Sense avaluació" ++ "\n" ++
          "  Comentaris: " ++
          String.intercalate "; "
            (ev.commentIds.filterMap
              (fun cid => (comments.find? (fun c => c.id == cid)).map Comment.text)) ++
          "\n\n" := by
      simp [blockParagraph, hev, hgid, hne, hg, map_reduceOption_map_eq_filterMap]
    rw [← hpar]
    exact hocc

/-- A concrete student for witnesses. -/
def sampleStudent : Student :=
  { id := "st1", name := "Anna", gender := .nena, course := .c3r }

/-- A concrete subject for witnesses. -/
def sampleSubject : Subject :=
  { id := "su1", name := "Matemàtiques" }

/-- A concrete block owned by `sampleSubject`. -/
def sampleBlock : Block :=
  { id := "b1", subject_id := "su1", name := "Numeració", trimesters := [.t1] }

/-- A concrete gradient owned by `sampleBlock`. -/
def sampleGradient : Gradient :=
  { id := "g1", block_id := "b1", tag := "A", text := "Domini excel·lent" }

/-- A concrete comment owned by `sampleBlock`. -/
def sampleComment1 : Comment :=
  { id := "c1", block_id := "b1", tag := "t1", text := "Cal practicar" }

/-- A second concrete comment owned by `sampleBlock`. -/
def sampleComment2 : Comment :=
  { id := "c2", block_id := "b1", tag := "t2", text := "Bon càlcul mental" }

/-- A selection map choosing gradient g1 and comments c1, zz (dangling), c2
for block b1. -/
def sampleEvalMap : EvalMap := fun k =>
  if k = "b1" then
    some { gradientId := some "g1", commentIds := ["c1", "zz", "c2"] }
  else none

/-- Witness for C6: with an empty selection map, a block with comments
defined still contributes nothing — the prompt equals the one without it. -/
theorem generatePrompt_skips_block_witness :
    generatePrompt sampleStudent sampleSubject .t1 ([] ++ sampleBlock :: [])
        [sampleGradient] [sampleComment1, sampleComment2] (fun _ => none) .mestra =
      generatePrompt sampleStudent sampleSubject .t1 ([] ++ [])
        [sampleGradient] [sampleComment1, sampleComment2] (fun _ => none) .mestra :=
  generatePrompt_skips_block_without_gradient sampleStudent sampleSubject .t1 [] []
    sampleBlock [sampleGradient] [sampleComment1, sampleComment2] (fun _ => none)
    .mestra (Or.inl rfl)

/-- Witness for C7: the rendered paragraph of block b1 — gradient text
resolved, dangling comment id "zz" dropped, remaining comment texts joined
by "; " — occurs in the compiled prompt. -/
theorem generatePrompt_renders_witness :
    occursIn
      "- Bloc: Numeració\n  Gradient: Domini excel·lent\n  Comentaris: Cal practicar; Bon càlcul mental\n\n"
      (generatePrompt sampleStudent sampleSubject .t1 ([] ++ sampleBlock :: [])
        [sampleGradient] [sampleComment1, sampleComment2] sampleEvalMap .mestra) := by
  have h := (generatePrompt_renders_gradient_and_comments sampleStudent sampleSubject
    .t1 [] [] [sampleGradient] [sampleComment1, sampleComment2] sampleEvalMap .mestra
    sampleBlock { gradientId := some "g1", commentIds := ["c1", "zz", "c2"] } "g1"
    (by decide) rfl (by decide)).1 sampleGradient (by decide)
  have he :
      ("- Bloc: " ++ sampleBlock.name ++ "\n" ++ "  Gradient: " ++
          sampleGradient.text ++ "\n" ++ "  Comentaris: " ++
          String.intercalate "; "
            ((["c1", "zz", "c2"] : List String).filterMap
              (fun cid =>
                (([sampleComment1, sampleComment2].find?
                    (fun c => c.id == cid))).map Comment.text)) ++
          "\n\n") =
        "- Bloc: Numeració\n  Gradient: Domini excel·lent\n  Comentaris: Cal practicar; Bon càlcul mental\n\n" := by
    decide
  rw [he] at h
  exact h

/-- Outcome of the external `ai.models.generateContent` call: either it
resolves (with a possibly absent/empty `response.text`) or it rejects with an
error whose `message` may be absent/empty. -/
inductive GeminiOutcome where
  | success (text : Option String)
  | failure (message : Option String)
deriving DecidableEq, Repr

/-- `fetchReportFromGemini` from services/geminiService.ts.  The environment
credential `import.meta.env.VITE_GEMINI_API_KEY` is passed as `envKey`, and
the external API behaviour as `api`.  The whole body sits in a `try` whose
`catch` turns any thrown/rejected error into the normally-returned string
"Error generant l'informe: <message or default>", so the function always
resolves with a string. -/
def fetchReportFromGemini (prompt : String) (userApiKey envKey : Option String)
    (api : GeminiOutcome) : String :=
  let apiKey := jsOr userApiKey envKey
  let tryResult : Except (Option String) String :=
    if jsTruthy apiKey = false then
      Except.error (some "API_KEY not found in environment variables")
    else
      match api with
      | .success t => Except.ok (jsOrDefault t "No s'ha generat cap text.")
      | .failure m => Except.error m
  match tryResult with
  | Except.ok s => s
  | Except.error m => "Error generant l'informe: " ++ jsOrDefault m "Error desconegut"

/-- C10: `fetchReportFromGemini` never rejects (it totally returns a string in
this embedding, mirroring the all-enclosing try/catch), and on every failure
path — missing credential, or a transport/API error — it resolves with a
string beginning "Error generant l'informe:", indistinguishable by type from
a successful report. -/
theorem fetchReportFromGemini_failures_resolve_as_error_string (prompt : String)
    (userApiKey envKey : Option String) (api : GeminiOutcome)
    (h : jsTruthy (jsOr userApiKey envKey) = false ∨
      ∃ m, api = GeminiOutcome.failure m) :
    ∃ rest, fetchReportFromGemini prompt userApiKey envKey api =
      "Error generant l'informe: " ++ rest := by
  rcases h with h | ⟨m, rfl⟩
  · simp [fetchReportFromGemini, h]
  · by_cases hk : jsTruthy (jsOr userApiKey envKey) = false
    · simp [fetchReportFromGemini, hk]
    · simp [fetchReportFromGemini, hk]

/-- Witness for C10: with no user key and no environment key, even a
would-be-successful API call resolves to the error-prefixed string. -/
theorem fetchReportFromGemini_failures_resolve_witness :
    ∃ rest, fetchReportFromGemini "p" none none (GeminiOutcome.success (some "hola")) =
      "Error generant l'informe: " ++ rest :=
  fetchReportFromGemini_failures_resolve_as_error_string "p" none none
    (GeminiOutcome.success (some "hola")) (Or.inl (by decide))

/-- The component state of the Evaluator touched by `handleGenerate`. -/
structure EvaluatorState where
  user : UserProfile
  generatedPrompt : String
  geminiReport : String
  showLimitModal : Bool
  loading : Bool
deriving DecidableEq, Repr

/-- Instrumentation of the orchestrator: how many times `handleGenerate`
invoked `generatePrompt`, `fetchReportFromGemini` and `incrementDailyUsage`
during one run. -/
structure GenCounters where
  promptCalls : Nat
  fetchCalls : Nat
  recordCalls : Nat
deriving DecidableEq, Repr

/-- `handleGenerate` from src/components/Evaluator.tsx: guard on the
selections, check the daily limit (showing the limit modal and stopping when
exceeded), compile the prompt, call the external generator, then call
`incrementDailyUsage` and persist the updated user.  `fetchReportFromGemini`
never rejects, so the `catch` branch of the source is unreachable and the
usage increment runs unconditionally after the await. -/
def handleGenerate (st : EvaluatorState) (selectedStudent : Option Student)
    (selectedSubject : Option Subject) (trimester : Option Trimester)
    (activeBlocks : List Block) (gradients : List Gradient) (comments : List Comment)
    (evaluations : EvalMap) (today : String) (envKey : Option String)
    (api : GeminiOutcome) : EvaluatorState × GenCounters :=
  match selectedStudent, selectedSubject, trimester with
  | some student, some subject, some tri =>
    if checkDailyLimit st.user today = false then
      ({ st with showLimitModal := true },
       { promptCalls := 0, fetchCalls := 0, recordCalls := 0 })
    else
      let st1 := { st with
        showLimitModal := false, loading := true
        geminiReport := "", generatedPrompt := "" }
      let prompt := generatePrompt student subject tri activeBlocks gradients comments
        evaluations st.user.gender
      let st2 := { st1 with generatedPrompt := prompt }
      let report := fetchReportFromGemini prompt st.user.geminiApiKey envKey api
      let updatedUser := incrementDailyUsage st.user today
      ({ st2 with geminiReport := report, user := updatedUser, loading := false },
       { promptCalls := 1, fetchCalls := 1, recordCalls := 1 })
  | _, _, _ => (st, { promptCalls := 0, fetchCalls := 0, recordCalls := 0 })

/-- C2: when `checkDailyLimit` refuses, `handleGenerate` signals the quota
condition immediately (limit modal) and stops: the prompt compiler is never
invoked, the external generator is never invoked, no usage is recorded, and
the rest of the state — the user profile included — is unchanged. -/
theorem handleGenerate_quota_exceeded_stops (st : EvaluatorState) (student : Student)
    (subject : Subject) (tri : Trimester) (activeBlocks : List Block)
    (gradients : List Gradient) (comments : List Comment) (evaluations : EvalMap)
    (today : String) (envKey : Option String) (api : GeminiOutcome)
    (h : checkDailyLimit st.user today = false) :
    handleGenerate st (some student) (some subject) (some tri) activeBlocks gradients
        comments evaluations today envKey api =
      ({ st with showLimitModal := true },
       { promptCalls := 0, fetchCalls := 0, recordCalls := 0 }) := by
  simp [handleGenerate, h]

/-- A non-premium profile at today's cap (count 5 on 2024-05-01). -/
def freeUserAtLimit : UserProfile :=
  { id := "u4", email := "g@h.cat", name := "Pere", currentCourse := .c4t,
    gender := .mestre, isPremium := false,
    dailyUsage := { date := "2024-05-01", count := 5 }, geminiApiKey := none }

/-- Resting Evaluator state for `freeUserAtLimit`. -/
def atLimitState : EvaluatorState :=
  { user := freeUserAtLimit, generatedPrompt := "", geminiReport := "",
    showLimitModal := false, loading := false }

/-- Witness for C2 at a concrete at-limit profile. -/
theorem handleGenerate_quota_exceeded_stops_witness :
    handleGenerate atLimitState (some sampleStudent) (some sampleSubject)
        (some Trimester.t1) [sampleBlock] [sampleGradient]
        [sampleComment1, sampleComment2] sampleEvalMap "2024-05-01" (some "k")
        (GeminiOutcome.success (some "hola")) =
      ({ atLimitState with showLimitModal := true },
       { promptCalls := 0, fetchCalls := 0, recordCalls := 0 }) :=
  handleGenerate_quota_exceeded_stops atLimitState sampleStudent sampleSubject
    Trimester.t1 [sampleBlock] [sampleGradient] [sampleComment1, sampleComment2]
    sampleEvalMap "2024-05-01" (some "k") (GeminiOutcome.success (some "hola"))
    (by decide)

/-- Resting Evaluator state for `freeUserToday` (count 4 on 2024-05-01). -/
def underLimitState : EvaluatorState :=
  { user := freeUserToday, generatedPrompt := "", geminiReport := "",
    showLimitModal := false, loading := false }

/-- C1 (code bug): at a concrete admitted generation whose external call
fails (the API rejects with "Network error"), `handleGenerate` still calls
`incrementDailyUsage` once and the profile's daily count advances from 4 to
5, even though the surfaced report is the failure string — quota is spent on
a failed generation, contrary to the documented success-only recording. -/
theorem handleGenerate_records_usage_on_failed_generation :
    (handleGenerate underLimitState (some sampleStudent) (some sampleSubject)
        (some Trimester.t1) [sampleBlock] [sampleGradient]
        [sampleComment1, sampleComment2] sampleEvalMap "2024-05-01" (some "k")
        (GeminiOutcome.failure (some "Network error"))).1.geminiReport =
      "Error generant l'informe: Network error" ∧
    (handleGenerate underLimitState (some sampleStudent) (some sampleSubject)
        (some Trimester.t1) [sampleBlock] [sampleGradient]
        [sampleComment1, sampleComment2] sampleEvalMap "2024-05-01" (some "k")
        (GeminiOutcome.failure (some "Network error"))).2.recordCalls = 1 ∧
    (handleGenerate underLimitState (some sampleStudent) (some sampleSubject)
        (some Trimester.t1) [sampleBlock] [sampleGradient]
        [sampleComment1, sampleComment2] sampleEvalMap "2024-05-01" (some "k")
        (GeminiOutcome.failure (some "Network error"))).1.user.dailyUsage =
      { date := "2024-05-01", count := 5 } := by
  refine ⟨?_, ?_, ?_⟩ <;>
    simp [handleGenerate, underLimitState, freeUserToday, checkDailyLimit,
      incrementDailyUsage, fetchReportFromGemini, jsOr, jsTruthy, jsOrDefault]

/-- One user action on the comment checkboxes of a block: ticking adds the
comment id (the caller then truncates with `.slice(0, 3)`), unticking
filters it out. -/
inductive CommentOp where
  | add (cid : String)
  | remove (cid : String)
deriving DecidableEq, Repr

/-- The `field`/`value` union passed to `handleBlockChange`. -/
inductive BlockChangeValue where
  | gradientId (v : String)
  | commentIds (v : List String)
deriving DecidableEq, Repr

/-- `handleBlockChange` from src/components/Evaluator.tsx: functional update
of the evaluation map at `blockId`; the untouched field is carried over from
the previous entry (`prev[blockId]?.gradientId || null`,
`prev[blockId]?.commentIds || []`). -/
def handleBlockChange (evaluations : EvalMap) (blockId : String)
    (value : BlockChangeValue) : EvalMap :=
  fun k =>
    if k = blockId then
      some
        { gradientId :=
            match value with
            | .gradientId v => some v
            | .commentIds _ => jsOr ((evaluations blockId).bind BlockEval.gradientId) none
          commentIds :=
            match value with
            | .commentIds v => v
            | .gradientId _ => ((evaluations blockId).map BlockEval.commentIds).getD [] }
    else evaluations k

/-- The comment-checkbox `onChange` logic of the Evaluator:
`[...currentEval.commentIds, c.id].slice(0, 3)` on tick,
`currentEval.commentIds.filter(id => id !== c.id)` on untick, fed to
`handleBlockChange`; `currentEval` is `evaluations[block.id]` or the default
`{ gradientId: null, commentIds: [] }`. -/
def commentToggle (evaluations : EvalMap) (blockId : String) (op : CommentOp) :
    EvalMap :=
  let currentEval := (evaluations blockId).getD { gradientId := none, commentIds := [] }
  let newIds :=
    match op with
    | .add cid => (currentEval.commentIds ++ [cid]).take 3
    | .remove cid => currentEval.commentIds.filter (fun i => i != cid)
  handleBlockChange evaluations blockId (.commentIds newIds)

/-- C8: starting from a selection state whose comment list for a block has at
most 3 entries, any sequence of checkbox add/remove operations leaves that
block's comment list with at most 3 entries. -/
theorem commentSelection_at_most_three (blockId : String) (evaluations : EvalMap)
    (ops : List CommentOp)
    (h : ∀ e, evaluations blockId = some e → e.commentIds.length ≤ 3) :
    ∀ e, (ops.foldl (fun ev op => commentToggle ev blockId op) evaluations) blockId =
        some e →
      e.commentIds.length ≤ 3 := by
  induction ops generalizing evaluations with
  | nil => exact h
  | cons op ops ih =>
    apply ih
    intro e he
    have hcur : ((evaluations blockId).getD
        { gradientId := none, commentIds := [] }).commentIds.length ≤ 3 := by
      cases hc : evaluations blockId with
      | none => simp
      | some e' => simpa using h e' hc
    cases op with
    | add cid =>
      simp only [commentToggle, handleBlockChange, if_pos] at he
      obtain rfl := (Option.some_inj.mp he).symm
      simp only [List.length_take]
      omega
    | remove cid =>
      simp only [commentToggle, handleBlockChange, if_pos] at he
      obtain rfl := (Option.some_inj.mp he).symm
      calc (((evaluations blockId).getD
              { gradientId := none, commentIds := [] }).commentIds.filter
            (fun i => i != cid)).length
          ≤ ((evaluations blockId).getD
              { gradientId := none, commentIds := [] }).commentIds.length :=
            List.length_filter_le _ _
        _ ≤ 3 := hcur

/-- Witness for C8: four successive adds on an empty selection leave exactly
the first three ids. -/
theorem commentSelection_at_most_three_witness :
    (BlockEval.mk none ["c1", "c2", "c3"]).commentIds.length ≤ 3 :=
  commentSelection_at_most_three "b1" (fun _ => none)
    [.add "c1", .add "c2", .add "c3", .add "c4"] (fun _ he => nomatch he)
    { gradientId := none, commentIds := ["c1", "c2", "c3"] } (by decide)

/-- `dataActions.subjects.delete` from the data-provider component: remove
the subjects with the given ids, then the blocks owned by them
(`blocksToDelete`), then every gradient and comment whose `block_id` is among
the deleted block ids; the remote deletes target the same sets, so the
in-memory state transition below is the consumer-visible result. -/
def subjectsDelete (d : AppData) (ids : List String) : AppData :=
  let blocksToDelete := (d.blocks.filter (fun b => ids.contains b.subject_id)).map Block.id
  { students := d.students
    subjects := d.subjects.filter (fun s => !(ids.contains s.id))
    blocks := d.blocks.filter (fun b => !(blocksToDelete.contains b.id))
    gradients := d.gradients.filter (fun g => !(blocksToDelete.contains g.block_id))
    comments := d.comments.filter (fun c => !(blocksToDelete.contains c.block_id)) }

/-- C9: deleting subjects cascades completely — no deleted subject survives,
every block owned by a deleted subject is removed, no surviving block
references a deleted subject, and no surviving gradient or comment references
any removed block (no orphans). -/
theorem subjectsDelete_cascade_no_orphans (d : AppData) (ids : List String) :
    (∀ s ∈ (subjectsDelete d ids).subjects, s.id ∉ ids) ∧
    (∀ b ∈ d.blocks, b.subject_id ∈ ids → b ∉ (subjectsDelete d ids).blocks) ∧
    (∀ b ∈ (subjectsDelete d ids).blocks, b.subject_id ∉ ids) ∧
    (∀ g ∈ (subjectsDelete d ids).gradients, ∀ b ∈ d.blocks,
      b ∉ (subjectsDelete d ids).blocks → g.block_id ≠ b.id) ∧
    (∀ c2 ∈ (subjectsDelete d ids).comments, ∀ b ∈ d.blocks,
      b ∉ (subjectsDelete d ids).blocks → c2.block_id ≠ b.id) := by
  refine ⟨?_, ?_, ?_, ?_, ?_⟩
  · intro s hs
    simp [subjectsDelete, List.mem_filter] at hs
    exact hs.2
  · intro b hb hbs
    simp [subjectsDelete, List.mem_filter]
    intro _
    exact ⟨b, hb, hbs, rfl⟩
  · intro b hb hbs
    simp [subjectsDelete, List.mem_filter] at hb
    exact hb.2 b hb.1 hbs rfl
  · intro g hg b hb hbk heq
    simp [subjectsDelete, List.mem_filter] at hg hbk
    obtain ⟨x, hx, hxs, hxid⟩ := hbk hb
    exact hg.2 x hx hxs (hxid.trans heq.symm)
  · intro c2 hc2 b hb hbk heq
    simp [subjectsDelete, List.mem_filter] at hc2 hbk
    obtain ⟨x, hx, hxs, hxid⟩ := hbk hb
    exact hc2.2 x hx hxs (hxid.trans heq.symm)

/-- A second concrete subject, not deleted in the witness scenario. -/
def otherSubject : Subject := { id := "su2", name := "Ciències" }

/-- A concrete block owned by `otherSubject`. -/
def otherBlock : Block :=
  { id := "b2", subject_id := "su2", name := "Éssers vius", trimesters := [.t2] }

/-- A concrete data state with two subjects, their blocks, and the gradient
and comments owned by `sampleBlock`. -/
def sampleData : AppData :=
  { students := [sampleStudent], subjects := [sampleSubject, otherSubject],
    blocks := [sampleBlock, otherBlock], gradients := [sampleGradient],
    comments := [sampleComment1, sampleComment2] }

/-- Witness for C9: deleting subject su1 removes its block b1. -/
theorem subjectsDelete_cascade_no_orphans_witness :
    sampleBlock ∉ (subjectsDelete sampleData ["su1"]).blocks :=
  (subjectsDelete_cascade_no_orphans sampleData ["su1"]).2.1 sampleBlock (by decide)
    (by decide)
